import Mathlib

/-!
Verification development for the mineral-wool cost calculator.

The Python engine (`minwool/engine.py`) is embedded shallowly: its float
arithmetic is modelled over `ℚ`, Python's `round(x, n)` (round half to even
on the exact value) by `rhe`, float floor division `//` by `Int.floor` of the
quotient, and float `%` by `qmod`.  The GUI density-list operations
(`minwool/gui.py`) are embedded as pure transformers of the engine state.
-/

namespace Minwool

/-- Round half to even to the nearest integer, as Python's `round` does on an
exactly representable value. -/
def rhe (q : ℚ) : ℤ :=
  if q - ⌊q⌋ = 1/2 then (if 2 ∣ ⌊q⌋ then ⌊q⌋ else ⌊q⌋ + 1) else ⌊q + 1/2⌋

/-- Python `round(x, 2)`. -/
def round2 (q : ℚ) : ℚ := (rhe (q * 100) : ℚ) / 100

/-- Python `round(x, 4)`. -/
def round4 (q : ℚ) : ℚ := (rhe (q * 10000) : ℚ) / 10000

/-- Python float `%` for a positive modulus: `a - b * ⌊a / b⌋`. -/
def qmod (a b : ℚ) : ℚ := a - b * ⌊a / b⌋

/-- The engine's configuration dictionary (`self.config`). -/
structure Config where
  throughput_t_h : ℚ
  yield_rate : ℚ
  loi_percent : ℚ
  resin_solid_content : ℚ
  resin_efficiency : ℚ
  resin_price_per_ton : ℚ
  var_stone_t : ℚ
  var_melting_energy_t : ℚ
  var_other_t : ℚ
  slab_length_mm : ℚ
  slab_width_mm : ℚ
  slab_thickness_mm : ℚ
  target_pack_height_mm : ℚ
  target_pallet_height_mm : ℚ
  pallet_length_mm : ℚ
  pallet_width_mm : ℚ
  max_pack_weight_kg : ℚ
  film_price_per_lm : ℚ
  film_width_m : ℚ
  pallet_price : ℚ
  hood_price : ℚ
  stretch_price_pallet : ℚ
  pallets_per_truck : ℚ
deriving DecidableEq

/-- Per-density pack mode (`'auto'` / `'manual'`). -/
inductive Mode
  | auto
  | manual
deriving DecidableEq

/-- Per-density pack setting (`self.pack_settings[rho]`). -/
structure PackSetting where
  mode : Mode
  manual_n : ℤ
deriving DecidableEq

/-- The mutable state of a `MinwoolEngine` instance. -/
structure EngineState where
  config : Config
  fixed_costs : List (String × ℚ)
  densities : List ℚ
  pack_settings : List (ℚ × PackSetting)
deriving DecidableEq

/-- Default configuration from `MinwoolEngine.__init__`. -/
def defaultConfig : Config where
  throughput_t_h := 4
  yield_rate := 97/100
  loi_percent := 9/2
  resin_solid_content := 1/2
  resin_efficiency := 19/20
  resin_price_per_ton := 60000
  var_stone_t := 15000
  var_melting_energy_t := 15000
  var_other_t := 3500
  slab_length_mm := 1200
  slab_width_mm := 600
  slab_thickness_mm := 50
  target_pack_height_mm := 600
  target_pallet_height_mm := 2400
  pallet_length_mm := 2400
  pallet_width_mm := 1200
  max_pack_weight_kg := 30
  film_price_per_lm := 15
  film_width_m := 7/5
  pallet_price := 1500
  hood_price := 500
  stretch_price_pallet := 150
  pallets_per_truck := 22

/-- Default engine state from `MinwoolEngine.__init__`. -/
def defaultEngine : EngineState where
  config := defaultConfig
  fixed_costs := [("FOT", 40000), ("Energy", 20000), ("Amortization", 20000)]
  densities := [35, 50, 75, 100, 125, 150, 175, 200]
  pack_settings :=
    [35, 50, 75, 100, 125, 150, 175, 200].map (fun rho => (rho, ⟨Mode.auto, 1⟩))

/-- `sum(self.fixed_costs.values())`. -/
def fixedSum (s : EngineState) : ℚ := (s.fixed_costs.map Prod.snd).sum

/-- The configuration invariant assumed throughout the spec: throughput > 0,
yield rate in (0,1], binder solids × efficiency > 0, lengths/weights > 0. -/
def validConfig (c : Config) : Prop :=
  0 < c.throughput_t_h ∧ 0 < c.yield_rate ∧ c.yield_rate ≤ 1 ∧
  0 < c.resin_solid_content * c.resin_efficiency ∧
  0 < c.slab_length_mm ∧ 0 < c.slab_width_mm ∧ 0 < c.slab_thickness_mm ∧
  0 < c.target_pack_height_mm ∧ 0 < c.target_pallet_height_mm ∧
  0 < c.pallet_length_mm ∧ 0 < c.pallet_width_mm ∧ 0 < c.max_pack_weight_kg

instance (c : Config) : Decidable (validConfig c) := by
  unfold validConfig; infer_instance

/-- `MinwoolEngine.calc_production_cost_t`. -/
def calc_production_cost_t (s : EngineState) : ℚ :=
  let c := s.config
  let resin_kg_t := 1000 * (c.loi_percent/100) / (c.resin_solid_content * c.resin_efficiency)
  let resin_cost_t := (resin_kg_t / 1000) * c.resin_price_per_ton
  let fixed_costs_h := fixedSum s
  let var_costs_t_ex := c.var_stone_t + c.var_melting_energy_t + c.var_other_t
  round2 ((fixed_costs_h / c.throughput_t_h / c.yield_rate)
    + (var_costs_t_ex / c.yield_rate) + resin_cost_t)

/-- `MinwoolEngine.calc_packs_on_pallet`. -/
def calc_packs_on_pallet (c : Config) (h_pack_mm : ℚ) : ℤ :=
  let l1 := ⌊c.pallet_length_mm / c.slab_length_mm⌋
  let w1 := ⌊c.pallet_width_mm / c.slab_width_mm⌋
  let per_layer_1 := l1 * w1
  let l2 := ⌊c.pallet_length_mm / c.slab_width_mm⌋
  let w2 := ⌊c.pallet_width_mm / c.slab_length_mm⌋
  let per_layer_2 := l2 * w2
  let per_layer := max per_layer_1 per_layer_2
  let per_layer := if per_layer < 1 then 1 else per_layer
  let n_layers := ⌊c.target_pallet_height_mm / h_pack_mm⌋
  let n_layers := if n_layers < 1 then 1 else n_layers
  per_layer * n_layers

/-- The weight bound of `MinwoolEngine.optimize_pack`: `n_weight`. -/
def nWeight (c : Config) (slab_t density : ℚ) : ℤ :=
  let v_slab := c.slab_length_mm * c.slab_width_mm * slab_t / 1000000000
  let w_slab := v_slab * density
  if 0 < w_slab then ⌊c.max_pack_weight_kg / w_slab⌋ else 999

/-- The starting bound `n_start` of `MinwoolEngine.optimize_pack`. -/
def nStart (c : Config) (slab_t density : ℚ) : ℤ :=
  let n_height := ⌊c.target_pack_height_mm / slab_t⌋
  let n_height := if n_height < 1 then 1 else n_height
  let n_start := min n_height (nWeight c slab_t density)
  if n_start < 1 then 1 else n_start

/-- The clean-stacking test of `optimize_pack`'s loop body:
`pack_h > 0 and abs(pallet_h % pack_h) < 0.001` at `pack_h = n * slab_t`. -/
def okPack (c : Config) (slab_t : ℚ) (n : ℕ) : Prop :=
  0 < (n : ℚ) * slab_t ∧ |qmod c.target_pallet_height_mm ((n : ℚ) * slab_t)| < 1/1000

instance (c : Config) (slab_t : ℚ) (n : ℕ) : Decidable (okPack c slab_t n) := by
  unfold okPack; infer_instance

/-- The downward loop `for n in range(n_start, 0, -1)` of `optimize_pack`:
returns the first (largest) `n ≤ k` passing the clean-stacking test. -/
def searchDown (c : Config) (slab_t : ℚ) : ℕ → Option ℕ
  | 0 => none
  | n + 1 => if okPack c slab_t (n + 1) then some (n + 1) else searchDown c slab_t n

/-- `MinwoolEngine.optimize_pack`. -/
def optimize_pack (c : Config) (slab_t : ℚ) (density : ℚ) : ℤ :=
  let n_start := nStart c slab_t density
  match searchDown c slab_t n_start.toNat with
  | some n => (n : ℤ)
  | none => n_start

/-- `MinwoolEngine._calc_pack_height_mm`. -/
def calc_pack_height_mm (c : Config) (n_slabs : ℤ) : ℚ :=
  (n_slabs : ℚ) * c.slab_thickness_mm

/-- `MinwoolEngine._calc_pack_perimeter_m`. -/
def calc_pack_perimeter_m (c : Config) (h_pack_mm : ℚ) : ℚ :=
  (2 * h_pack_mm + 2 * c.slab_width_mm) / 1000

/-- `MinwoolEngine._calc_film_cost_per_pack_rub`. -/
def calc_film_cost_per_pack_rub (c : Config) (perimeter_m : ℚ) : ℚ :=
  perimeter_m * c.film_price_per_lm

/-- `MinwoolEngine._calc_total_packaging_per_pallet_rub`. -/
def calc_total_packaging_per_pallet_rub (c : Config) (film_cost_per_pack : ℚ)
    (packs_per_pallet : ℤ) : ℚ :=
  film_cost_per_pack * (packs_per_pallet : ℚ) + c.hood_price + c.stretch_price_pallet

/-- `MinwoolEngine._calc_total_packaging_per_pack_rub`. -/
def calc_total_packaging_per_pack_rub (total_packaging_per_pallet : ℚ)
    (packs_per_pallet : ℤ) : ℚ :=
  if 0 < packs_per_pallet then total_packaging_per_pallet / (packs_per_pallet : ℚ) else 0

/-- `MinwoolEngine._calc_pack_volume_m3`. -/
def calc_pack_volume_m3 (c : Config) (h_pack_mm : ℚ) : ℚ :=
  c.slab_length_mm * c.slab_width_mm * h_pack_mm / 1000000000

/-- `MinwoolEngine._calc_pallet_volume_m3`. -/
def calc_pallet_volume_m3 (pack_volume_m3 : ℚ) (packs_per_pallet : ℤ) : ℚ :=
  pack_volume_m3 * (packs_per_pallet : ℚ)

/-- `MinwoolEngine._calc_wool_cost_m3`. -/
def calc_wool_cost_m3 (cost_t density : ℚ) : ℚ := cost_t * density / 1000

/-- `MinwoolEngine._calc_packaging_cost_m3`. -/
def calc_packaging_cost_m3 (packaging_pallet_cost_rub pallet_volume_m3 : ℚ) : ℚ :=
  if 0 < pallet_volume_m3 then packaging_pallet_cost_rub / pallet_volume_m3 else 0

/-- `MinwoolEngine._calc_wool_pallet_cost_rub`. -/
def calc_wool_pallet_cost_rub (wool_cost_m3 pallet_volume_m3 : ℚ) : ℚ :=
  wool_cost_m3 * pallet_volume_m3

/-- `MinwoolEngine._calc_total_pallet_cost_with_packaging_rub`. -/
def calc_total_pallet_cost_with_packaging_rub
    (wool_pallet_cost_rub packaging_pallet_cost_rub : ℚ) : ℚ :=
  wool_pallet_cost_rub + packaging_pallet_cost_rub

/-- `MinwoolEngine._calc_total_cost_m3`. -/
def calc_total_cost_m3 (total_pallet_cost_with_packaging_rub pallet_volume_m3 : ℚ) : ℚ :=
  if 0 < pallet_volume_m3 then total_pallet_cost_with_packaging_rub / pallet_volume_m3 else 0

/-- `MinwoolEngine._calc_total_cost_t_with_packaging`. -/
def calc_total_cost_t_with_packaging (total_cost_m3 density : ℚ) : ℚ :=
  if 0 < density then total_cost_m3 / (density / 1000) else 0

/-- `MinwoolEngine._calc_pack_weight_kg`. -/
def calc_pack_weight_kg (pack_volume_m3 density : ℚ) : ℚ := pack_volume_m3 * density

/-- `MinwoolEngine._calc_pallet_weight_kg`. -/
def calc_pallet_weight_kg (pack_weight_kg : ℚ) (packs_per_pallet : ℤ) : ℚ :=
  pack_weight_kg * (packs_per_pallet : ℚ)

/-- `MinwoolEngine._calc_truck_weight_kg`. -/
def calc_truck_weight_kg (c : Config) (pallet_weight_kg : ℚ) : ℚ :=
  pallet_weight_kg * c.pallets_per_truck

/-- `MinwoolEngine._calc_truck_volume_m3`. -/
def calc_truck_volume_m3 (c : Config) (pallet_volume_m3 : ℚ) : ℚ :=
  pallet_volume_m3 * c.pallets_per_truck

/-- `MinwoolEngine._calc_truck_cost_rub`. -/
def calc_truck_cost_rub (c : Config) (pallet_cost_rub : ℚ) : ℚ :=
  pallet_cost_rub * c.pallets_per_truck

/-- `MinwoolEngine._calc_real_pallet_height_mm`. -/
def calc_real_pallet_height_mm (c : Config) (pack_height_mm : ℚ) : ℚ :=
  let layers : ℤ :=
    if 0 < pack_height_mm then ⌊c.target_pallet_height_mm / pack_height_mm⌋ else 0
  (layers : ℚ) * pack_height_mm

/-- `MinwoolEngine._calc_units_per_ton`. -/
def calc_units_per_ton (unit_weight_kg : ℚ) : ℚ :=
  if 0 < unit_weight_kg then 1000 / unit_weight_kg else 0

/-- `MinwoolEngine._calc_pack_price_rub`. -/
def calc_pack_price_rub (total_cost_m3 pack_volume_m3 : ℚ) : ℚ :=
  total_cost_m3 * pack_volume_m3

/-- The dictionary returned by `MinwoolEngine.calc_packaging_per_pack`. -/
structure PkgBreakdown where
  n_slabs : ℤ
  h_pack_mm : ℚ
  film_cost_rub : ℚ
  total_pallet_cost_rub : ℚ
  total_pack_cost_rub : ℚ
  vol_m3 : ℚ
deriving DecidableEq

/-- `MinwoolEngine.calc_packaging_per_pack`. -/
def calc_packaging_per_pack (c : Config) (n_slabs : ℤ) (packs_per_pallet : ℤ) :
    PkgBreakdown :=
  let h_pack := calc_pack_height_mm c n_slabs
  let perimeter_m := calc_pack_perimeter_m c h_pack
  let pack_cost := calc_film_cost_per_pack_rub c perimeter_m
  let total_pallet_cost := calc_total_packaging_per_pallet_rub c pack_cost packs_per_pallet
  let total_pack_cost := calc_total_packaging_per_pack_rub total_pallet_cost packs_per_pallet
  let pack_vol_m3 := calc_pack_volume_m3 c h_pack
  { n_slabs := n_slabs
    h_pack_mm := h_pack
    film_cost_rub := round2 pack_cost
    total_pallet_cost_rub := round2 total_pallet_cost
    total_pack_cost_rub := round2 total_pack_cost
    vol_m3 := pack_vol_m3 }

/-- `self.pack_settings.get(rho, default)`. -/
def lookupSetting : List (ℚ × PackSetting) → ℚ → PackSetting
  | [], _ => ⟨Mode.auto, 1⟩
  | p :: rest, rho => if p.1 = rho then p.2 else lookupSetting rest rho

/-- Slab-count resolution at the top of `run`'s loop body (manual vs auto). -/
def resolveN (s : EngineState) (rho : ℚ) : ℤ :=
  let setting := lookupSetting s.pack_settings rho
  match setting.mode with
  | Mode.manual => if setting.manual_n < 1 then 1 else setting.manual_n
  | Mode.auto => optimize_pack s.config s.config.slab_thickness_mm rho

/-- One row of the result table emitted by `MinwoolEngine.run` (transliterated
field names, in source order). -/
structure Row where
  density : ℚ
  cost_t_no_pkg : ℚ
  cost_t_with_pkg : ℚ
  cost_m3_no_pkg : ℚ
  cost_m3_with_pkg : ℚ
  n_slabs : ℤ
  pack_height_mm : ℚ
  pack_vol_m3 : ℚ
  packs_per_pallet : ℤ
  pallet_height_mm : ℚ
  pack_weight_kg : ℚ
  pallet_weight_kg : ℚ
  pallet_vol_m3 : ℚ
  truck_weight_kg : ℚ
  truck_vol_m3 : ℚ
  packs_per_ton : ℚ
  pallets_per_ton : ℚ
  pkg_per_pack_rub : ℚ
  pkg_per_pallet_rub : ℚ
  pkg_cost_m3 : ℚ
  pallet_cost_rub : ℚ
  truck_cost_rub : ℚ
  pack_price_rub : ℚ
deriving DecidableEq

/-- The loop body of `MinwoolEngine.run` for one density. -/
def makeRow (cost_t : ℚ) (s : EngineState) (rho : ℚ) : Row :=
  let c := s.config
  let n := resolveN s rho
  let h_pack_mm := calc_pack_height_mm c n
  let pks_pal := calc_packs_on_pallet c h_pack_mm
  let pkg := calc_packaging_per_pack c n pks_pal
  let pallet_vol := calc_pallet_volume_m3 pkg.vol_m3 pks_pal
  let cost_wool_m3 := calc_wool_cost_m3 cost_t rho
  let cost_pkg_m3 := calc_packaging_cost_m3 pkg.total_pallet_cost_rub pallet_vol
  let wool_pallet_cost := calc_wool_pallet_cost_rub cost_wool_m3 pallet_vol
  let total_pallet_cost_with_pkg :=
    calc_total_pallet_cost_with_packaging_rub wool_pallet_cost pkg.total_pallet_cost_rub
  let total_m3 := calc_total_cost_m3 total_pallet_cost_with_pkg pallet_vol
  let cost_t_with_pkg := calc_total_cost_t_with_packaging total_m3 rho
  let pack_weight := calc_pack_weight_kg pkg.vol_m3 rho
  let pallet_weight := calc_pallet_weight_kg pack_weight pks_pal
  let truck_weight := calc_truck_weight_kg c pallet_weight
  let truck_vol := calc_truck_volume_m3 c pallet_vol
  let truck_cost := calc_truck_cost_rub c total_pallet_cost_with_pkg
  let real_pallet_h := calc_real_pallet_height_mm c pkg.h_pack_mm
  let packs_per_ton := calc_units_per_ton pack_weight
  let pallets_per_ton := calc_units_per_ton pallet_weight
  { density := rho
    cost_t_no_pkg := cost_t
    cost_t_with_pkg := round2 cost_t_with_pkg
    cost_m3_no_pkg := round2 cost_wool_m3
    cost_m3_with_pkg := round2 total_m3
    n_slabs := n
    pack_height_mm := pkg.h_pack_mm
    pack_vol_m3 := round4 pkg.vol_m3
    packs_per_pallet := pks_pal
    pallet_height_mm := real_pallet_h
    pack_weight_kg := round2 pack_weight
    pallet_weight_kg := round2 pallet_weight
    pallet_vol_m3 := round4 pallet_vol
    truck_weight_kg := round2 truck_weight
    truck_vol_m3 := round4 truck_vol
    packs_per_ton := round2 packs_per_ton
    pallets_per_ton := round2 pallets_per_ton
    pkg_per_pack_rub := pkg.total_pack_cost_rub
    pkg_per_pallet_rub := pkg.total_pallet_cost_rub
    pkg_cost_m3 := round2 cost_pkg_m3
    pallet_cost_rub := round2 total_pallet_cost_with_pkg
    truck_cost_rub := round2 truck_cost
    pack_price_rub := round2 (calc_pack_price_rub total_m3 pkg.vol_m3) }

/-- `MinwoolEngine.run`: one row per density, in list order. -/
def run (s : EngineState) : List Row :=
  let cost_t := calc_production_cost_t s
  s.densities.map (makeRow cost_t s)

/-- `MinwoolEngine.run` as a state transformer: the method body contains no
assignment to `self`, so the state component is returned unchanged. -/
def runM (s : EngineState) : EngineState × List Row := (s, run s)

/-- Ascending insertion (stable), used to model Python's `list.sort()`. -/
def insortQ (x : ℚ) : List ℚ → List ℚ
  | [] => [x]
  | y :: ys => if x ≤ y then x :: y :: ys else y :: insortQ x ys

/-- Ascending sort, modelling `self.engine.densities.sort()` in
`MinwoolGUI.setup_pack_tab`. -/
def sortQ (l : List ℚ) : List ℚ := l.foldr insortQ []

/-- Key membership in the pack-settings association list. -/
def hasKey (ps : List (ℚ × PackSetting)) (rho : ℚ) : Bool :=
  ps.any (fun p => p.1 = rho)

/-- `setup_pack_tab`'s per-row guard: settings are created (with the default
`auto`/1) for any density that lacks them. -/
def ensureSettings (ps : List (ℚ × PackSetting)) : List ℚ → List (ℚ × PackSetting)
  | [] => ps
  | rho :: rest =>
    ensureSettings (if hasKey ps rho then ps else ps ++ [(rho, ⟨Mode.auto, 1⟩)]) rest

/-- `del self.pack_settings[rho]` on the association-list model. -/
def eraseKeyQ : List (ℚ × PackSetting) → ℚ → List (ℚ × PackSetting)
  | [], _ => []
  | p :: rest, rho => if p.1 = rho then rest else p :: eraseKeyQ rest rho

/-- `self.engine.densities.remove(rho)` (first occurrence). -/
def eraseQ : List ℚ → ℚ → List ℚ
  | [], _ => []
  | y :: ys, rho => if y = rho then ys else y :: eraseQ ys rho

/-- The engine-state effect of `MinwoolGUI.add_density` followed by the
`setup_pack_tab` redraw (sort + ensure settings). -/
def add_density (s : EngineState) (v : ℚ) : EngineState :=
  if v ≤ 0 then s
  else if v ∈ s.densities then s
  else
    let densities := sortQ (s.densities ++ [v])
    { s with
      densities := densities
      pack_settings := ensureSettings (s.pack_settings ++ [(v, ⟨Mode.auto, 1⟩)]) densities }

/-- The engine-state effect of a confirmed `MinwoolGUI.remove_density` followed
by the `setup_pack_tab` redraw. -/
def remove_density (s : EngineState) (rho : ℚ) : EngineState :=
  let densities := sortQ (eraseQ s.densities rho)
  { s with
    densities := densities
    pack_settings := ensureSettings (eraseKeyQ s.pack_settings rho) densities }

/-- The row `run` emits for density `rho` (loop body at `rho`). -/
def rowOf (s : EngineState) (rho : ℚ) : Row := makeRow (calc_production_cost_t s) s rho

/-- The packs-per-pallet value `run` computes for density `rho`. -/
def pksOf (s : EngineState) (rho : ℚ) : ℤ :=
  calc_packs_on_pallet s.config (calc_pack_height_mm s.config (resolveN s rho))

/-- The packaging breakdown `run` computes for density `rho`. -/
def pkgOf (s : EngineState) (rho : ℚ) : PkgBreakdown :=
  calc_packaging_per_pack s.config (resolveN s rho) (pksOf s rho)

/-- The (unrounded) pallet volume `run` computes for density `rho`. -/
def palletVolOf (s : EngineState) (rho : ℚ) : ℚ :=
  calc_pallet_volume_m3 (pkgOf s rho).vol_m3 (pksOf s rho)

/-- The unrounded pallet packaging cost (film × packs + hood + stretch) for
density `rho`, before the 2-decimal rounding at the record boundary. -/
def rawPkgPalletOf (s : EngineState) (rho : ℚ) : ℚ :=
  calc_total_packaging_per_pallet_rub s.config
    (calc_film_cost_per_pack_rub s.config
      (calc_pack_perimeter_m s.config (calc_pack_height_mm s.config (resolveN s rho))))
    (pksOf s rho)

/-- The configuration used by the C3 counterexample: 1000×1000 mm slabs of
thickness 333.33 mm, other parameters default. -/
def cexConfig : Config :=
  { defaultConfig with
    slab_length_mm := 1000
    slab_width_mm := 1000
    slab_thickness_mm := 33333/100 }

/-- Engine state for the C3 counterexample: density list `[35]`. -/
def cexState : EngineState :=
  { config := cexConfig
    fixed_costs := defaultEngine.fixed_costs
    densities := [35]
    pack_settings := [(35, ⟨Mode.auto, 1⟩)] }

/-- Engine state for the C9 counterexample: an unsorted density list. -/
def c9State : EngineState :=
  { config := defaultConfig
    fixed_costs := defaultEngine.fixed_costs
    densities := [50, 35]
    pack_settings := [(50, ⟨Mode.auto, 1⟩), (35, ⟨Mode.auto, 1⟩)] }

section Lemmas

/-- Evaluation rule for `rhe` away from a half-integer. -/
lemma rhe_of_ne (q : ℚ) (h : q - ⌊q⌋ ≠ 1/2) : rhe q = ⌊q + 1/2⌋ := by
  simp only [rhe]
  rw [if_neg h]

/-- Evaluation rule for `rhe` at a half-integer with even floor. -/
lemma rhe_of_tie_even (q : ℚ) (h : q - ⌊q⌋ = 1/2) (h2 : 2 ∣ ⌊q⌋) : rhe q = ⌊q⌋ := by
  simp only [rhe]
  rw [if_pos h, if_pos h2]

/-- Evaluation rule for `round2` away from a half-cent. -/
lemma round2_of_ne (q : ℚ) (h : q * 100 - ⌊q * 100⌋ ≠ 1/2) :
    round2 q = (⌊q * 100 + 1/2⌋ : ℚ) / 100 := by
  rw [round2, rhe_of_ne _ h]

/-- Evaluation rule for `round2` at a half-cent with even floor. -/
lemma round2_of_tie_even (q : ℚ) (h : q * 100 - ⌊q * 100⌋ = 1/2) (h2 : 2 ∣ ⌊q * 100⌋) :
    round2 q = (⌊q * 100⌋ : ℚ) / 100 := by
  rw [round2, rhe_of_tie_even _ h h2]

/-- Evaluation rule for `round4` away from a tie. -/
lemma round4_of_ne (q : ℚ) (h : q * 10000 - ⌊q * 10000⌋ ≠ 1/2) :
    round4 q = (⌊q * 10000 + 1/2⌋ : ℚ) / 10000 := by
  rw [round4, rhe_of_ne _ h]

/-- `rhe` is within a half of its argument. -/
lemma abs_rhe_sub_le (q : ℚ) : |(rhe q : ℚ) - q| ≤ 1/2 := by
  by_cases h : q - ⌊q⌋ = 1/2
  · have hfl : |(⌊q⌋ : ℚ) - q| ≤ 1/2 := by
      rw [abs_sub_comm, abs_of_nonneg (by linarith)]
      linarith
    by_cases h2 : 2 ∣ ⌊q⌋
    · rw [rhe_of_tie_even _ h h2]
      exact hfl
    · have : rhe q = ⌊q⌋ + 1 := by
        simp only [rhe]
        rw [if_pos h, if_neg h2]
      rw [this]
      push_cast
      rw [abs_of_nonneg (by linarith)]
      linarith
  · rw [rhe_of_ne _ h, ← round_eq, abs_sub_comm]
    exact abs_sub_round q

/-- `round2` perturbs its argument by at most half a cent. -/
lemma abs_round2_sub_le (q : ℚ) : |round2 q - q| ≤ 1/200 := by
  have h := abs_rhe_sub_le (q * 100)
  rw [abs_le] at h ⊢
  rw [round2]
  constructor <;> [linarith; linarith]

/-- The source clamp `if x < 1 then 1 else x` is `max 1 x`. -/
lemma ite_lt_one_eq_max (x : ℤ) : (if x < 1 then 1 else x) = max 1 x := by
  split <;> omega

/-- `nStart` in the shape the spec states it. -/
lemma nStart_eq (c : Config) (t d : ℚ) :
    nStart c t d = max 1 (min ⌊c.target_pack_height_mm / t⌋ (nWeight c t d)) := by
  simp only [nStart, ite_lt_one_eq_max]
  omega

/-- `calc_packs_on_pallet` in the shape the spec states it. -/
lemma calc_packs_on_pallet_eq (c : Config) (h : ℚ) :
    calc_packs_on_pallet c h =
      max 1 (max (⌊c.pallet_length_mm / c.slab_length_mm⌋ * ⌊c.pallet_width_mm / c.slab_width_mm⌋)
          (⌊c.pallet_length_mm / c.slab_width_mm⌋ * ⌊c.pallet_width_mm / c.slab_length_mm⌋))
        * max 1 ⌊c.target_pallet_height_mm / h⌋ := by
  simp only [calc_packs_on_pallet, ite_lt_one_eq_max]

/-- Unrolling rule for the downward search. -/
lemma searchDown_succ (c : Config) (t : ℚ) (n : ℕ) :
    searchDown c t (n + 1) =
      if okPack c t (n + 1) then some (n + 1) else searchDown c t n := rfl

/-- A successful search returns the largest passing `n` in `[1, k]`. -/
lemma searchDown_eq_some {c : Config} {t : ℚ} {k n : ℕ}
    (h : searchDown c t k = some n) :
    1 ≤ n ∧ n ≤ k ∧ okPack c t n ∧ ∀ m : ℕ, n < m → m ≤ k → ¬ okPack c t m := by
  induction k with
  | zero => simp [searchDown] at h
  | succ k ih =>
    rw [searchDown_succ] at h
    by_cases hok : okPack c t (k + 1)
    · rw [if_pos hok] at h
      obtain rfl : k + 1 = n := by simpa using h
      exact ⟨Nat.succ_le_succ (Nat.zero_le k), le_refl _, hok, fun m h1 h2 => by omega⟩
    · rw [if_neg hok] at h
      obtain ⟨h1, h2, h3, h4⟩ := ih h
      refine ⟨h1, h2.trans (Nat.le_succ k), h3, fun m hm1 hm2 => ?_⟩
      rcases Nat.lt_succ_iff_lt_or_eq.mp (Nat.lt_succ_of_le hm2) with hlt | rfl
      · exact h4 m hm1 (by omega)
      · exact hok
/-- A failed search means no `n` in `[1, k]` passes. -/
lemma searchDown_eq_none {c : Config} {t : ℚ} {k : ℕ}
    (h : searchDown c t k = none) :
    ∀ m : ℕ, 1 ≤ m → m ≤ k → ¬ okPack c t m := by
  induction k with
  | zero => omega
  | succ k ih =>
    rw [searchDown_succ] at h
    by_cases hok : okPack c t (k + 1)
    · rw [if_pos hok] at h
      exact absurd h (by simp)
    · rw [if_neg hok] at h
      intro m h1 h2
      rcases Nat.lt_succ_iff_lt_or_eq.mp (Nat.lt_succ_of_le h2) with hlt | rfl
      · exact ih h m h1 (by omega)
      · exact hok

/-- The search succeeds whenever some `n` in `[1, k]` passes. -/
lemma searchDown_ne_none {c : Config} {t : ℚ} {k m : ℕ}
    (h1 : 1 ≤ m) (h2 : m ≤ k) (h3 : okPack c t m) :
    searchDown c t k ≠ none := fun hn => searchDown_eq_none hn m h1 h2 h3

/-- `nStart` is at least 1. -/
lemma one_le_nStart (c : Config) (t d : ℚ) : 1 ≤ nStart c t d := by
  rw [nStart_eq]
  exact le_max_left 1 _

/-- The default configuration satisfies the configuration invariant. -/
lemma validConfig_default : validConfig defaultConfig := by
  norm_num [validConfig, defaultConfig]

/-- `optimize_pack` as a match on the result of the downward search. -/
lemma optimize_pack_eq_match (c : Config) (t d : ℚ) :
    optimize_pack c t d =
      match searchDown c t (nStart c t d).toNat with
      | some n => (n : ℤ)
      | none => nStart c t d := rfl

/-- `optimize_pack` returns the found value when the search succeeds. -/
lemma optimize_pack_eq_of_some {c : Config} {t d : ℚ} {n : ℕ}
    (h : searchDown c t (nStart c t d).toNat = some n) :
    optimize_pack c t d = (n : ℤ) := by
  rw [optimize_pack_eq_match, h]

/-- `optimize_pack` falls back to `nStart` when the search fails. -/
lemma optimize_pack_eq_of_none {c : Config} {t d : ℚ}
    (h : searchDown c t (nStart c t d).toNat = none) :
    optimize_pack c t d = nStart c t d := by
  rw [optimize_pack_eq_match, h]

end Lemmas

/-- Claim C1: for every configuration satisfying the invariant,
`calc_production_cost_t` returns
`(fixedCostsSum / throughput / yieldRate) + (varExBinder / yieldRate) + resinCostPerTon`
rounded to 2 decimals, where the resin (binder) term
`((1000 * (LOI/100) / (solids * efficiency)) / 1000) * resinPrice`
is NOT divided by the yield rate; for the default configuration the result is
60838.85. -/
theorem claim_C1 (s : EngineState) (h : validConfig s.config) :
    calc_production_cost_t s =
      round2 ((fixedSum s / s.config.throughput_t_h / s.config.yield_rate)
        + ((s.config.var_stone_t + s.config.var_melting_energy_t + s.config.var_other_t)
            / s.config.yield_rate)
        + ((1000 * (s.config.loi_percent / 100)
              / (s.config.resin_solid_content * s.config.resin_efficiency)) / 1000)
            * s.config.resin_price_per_ton)
    ∧ calc_production_cost_t defaultEngine = 6083885/100 := by
  constructor
  · rfl
  · simp only [calc_production_cost_t]
    norm_num [fixedSum, defaultEngine, defaultConfig]
    rw [round2_of_ne (112126000/1843) (by norm_num)]
    norm_num

/-- Witness for C1 at the default engine state. -/
theorem claim_C1_witness :
    validConfig defaultEngine.config ∧
    (calc_production_cost_t defaultEngine =
      round2 ((fixedSum defaultEngine / defaultEngine.config.throughput_t_h
            / defaultEngine.config.yield_rate)
        + ((defaultEngine.config.var_stone_t + defaultEngine.config.var_melting_energy_t
              + defaultEngine.config.var_other_t) / defaultEngine.config.yield_rate)
        + ((1000 * (defaultEngine.config.loi_percent / 100)
              / (defaultEngine.config.resin_solid_content
                  * defaultEngine.config.resin_efficiency)) / 1000)
            * defaultEngine.config.resin_price_per_ton)
      ∧ calc_production_cost_t defaultEngine = 6083885/100) :=
  ⟨validConfig_default, claim_C1 defaultEngine validConfig_default⟩

/-- Claim C5: `calc_packs_on_pallet` is the better of the two axis-aligned
tilings (clamped to ≥ 1) times the layer count (clamped to ≥ 1); under the
default geometry a 600 mm pack gives 16 packs per pallet. -/
theorem claim_C5 (c : Config) (h : ℚ) (hc : validConfig c) (hh : 0 < h) :
    calc_packs_on_pallet c h =
      max 1 (max (⌊c.pallet_length_mm / c.slab_length_mm⌋
            * ⌊c.pallet_width_mm / c.slab_width_mm⌋)
          (⌊c.pallet_length_mm / c.slab_width_mm⌋
            * ⌊c.pallet_width_mm / c.slab_length_mm⌋))
        * max 1 ⌊c.target_pallet_height_mm / h⌋
    ∧ calc_packs_on_pallet defaultConfig 600 = 16 := by
  refine ⟨calc_packs_on_pallet_eq c h, ?_⟩
  rw [calc_packs_on_pallet_eq]
  norm_num [defaultConfig]

/-- Witness for C5 at the default configuration and the default pack height. -/
theorem claim_C5_witness :
    validConfig defaultConfig ∧ (0:ℚ) < 600 ∧
    (calc_packs_on_pallet defaultConfig 600 =
      max 1 (max (⌊defaultConfig.pallet_length_mm / defaultConfig.slab_length_mm⌋
            * ⌊defaultConfig.pallet_width_mm / defaultConfig.slab_width_mm⌋)
          (⌊defaultConfig.pallet_length_mm / defaultConfig.slab_width_mm⌋
            * ⌊defaultConfig.pallet_width_mm / defaultConfig.slab_length_mm⌋))
        * max 1 ⌊defaultConfig.target_pallet_height_mm / 600⌋
      ∧ calc_packs_on_pallet defaultConfig 600 = 16) :=
  ⟨validConfig_default, by norm_num,
    claim_C5 defaultConfig 600 validConfig_default (by norm_num)⟩

/-- Claim C7: degenerate inputs are guarded to defined values — zero slab
weight makes the weight bound the sentinel 999, and every denominator-guarded
quantity returns 0 on a zero denominator; no operation divides by zero. -/
theorem claim_C7 (c : Config) (t d x : ℚ)
    (hw : c.slab_length_mm * c.slab_width_mm * t / 1000000000 * d = 0) :
    nWeight c t d = 999 ∧
    calc_total_packaging_per_pack_rub x 0 = 0 ∧
    calc_packaging_cost_m3 x 0 = 0 ∧
    calc_total_cost_m3 x 0 = 0 ∧
    calc_total_cost_t_with_packaging x 0 = 0 ∧
    calc_units_per_ton 0 = 0 ∧
    calc_real_pallet_height_mm c 0 = 0 := by
  refine ⟨?_, ?_, ?_, ?_, ?_, ?_, ?_⟩
  · simp only [nWeight]
    rw [if_neg (by rw [hw]; exact lt_irrefl 0)]
  · simp only [calc_total_packaging_per_pack_rub]
    rw [if_neg (by omega)]
  · simp only [calc_packaging_cost_m3]
    rw [if_neg (lt_irrefl 0)]
  · simp only [calc_total_cost_m3]
    rw [if_neg (lt_irrefl 0)]
  · simp only [calc_total_cost_t_with_packaging]
    rw [if_neg (lt_irrefl 0)]
  · simp only [calc_units_per_ton]
    rw [if_neg (lt_irrefl 0)]
  · simp only [calc_real_pallet_height_mm]
    rw [if_neg (lt_irrefl 0)]
    norm_num

/-- Witness for C7 at zero slab thickness (hence zero slab weight). -/
theorem claim_C7_witness :
    (defaultConfig.slab_length_mm * defaultConfig.slab_width_mm * 0
        / 1000000000 * 35 = 0) ∧
    (nWeight defaultConfig 0 35 = 999 ∧
      calc_total_packaging_per_pack_rub 5 0 = 0 ∧
      calc_packaging_cost_m3 5 0 = 0 ∧
      calc_total_cost_m3 5 0 = 0 ∧
      calc_total_cost_t_with_packaging 5 0 = 0 ∧
      calc_units_per_ton 0 = 0 ∧
      calc_real_pallet_height_mm defaultConfig 0 = 0) :=
  ⟨by norm_num, claim_C7 defaultConfig 0 35 5 (by norm_num)⟩

/-- Claim C8: `run` is a pure function of the engine-state snapshot — the
state component is unchanged and a second run over the returned state
produces an identical table. -/
theorem claim_C8 (s : EngineState) :
    runM s = (s, run s) ∧ (runM (runM s).1).1 = s ∧ (runM (runM s).1).2 = (runM s).2 :=
  ⟨rfl, rfl, rfl⟩

/-- Claim C4: `calc_packaging_per_pack` returns film cost
`((2·slabCount·thickness + 2·slabWidth)/1000)·filmPrice`, total pallet cost
`film·packs + hood + stretch`, and distributed per-pack cost `total/packs`,
each rounded to 2 decimals only at the record boundary (the unrounded film and
total feed the later terms); under defaults `(12, 16)` gives 36.00, 1226.00
and 76.62. -/
theorem claim_C4 (c : Config) (n pks : ℤ) (hc : validConfig c) (hn : 1 ≤ n) (hp : 1 ≤ pks) :
    ((calc_packaging_per_pack c n pks).film_cost_rub
        = round2 (((2 * ((n:ℚ) * c.slab_thickness_mm) + 2 * c.slab_width_mm) / 1000)
            * c.film_price_per_lm) ∧
      (calc_packaging_per_pack c n pks).total_pallet_cost_rub
        = round2 ((((2 * ((n:ℚ) * c.slab_thickness_mm) + 2 * c.slab_width_mm) / 1000)
              * c.film_price_per_lm) * (pks:ℚ) + c.hood_price + c.stretch_price_pallet) ∧
      (calc_packaging_per_pack c n pks).total_pack_cost_rub
        = round2 (((((2 * ((n:ℚ) * c.slab_thickness_mm) + 2 * c.slab_width_mm) / 1000)
              * c.film_price_per_lm) * (pks:ℚ) + c.hood_price + c.stretch_price_pallet)
            / (pks:ℚ))) ∧
    (calc_packaging_per_pack defaultConfig 12 16).film_cost_rub = 36 ∧
    (calc_packaging_per_pack defaultConfig 12 16).total_pallet_cost_rub = 1226 ∧
    (calc_packaging_per_pack defaultConfig 12 16).total_pack_cost_rub = 7662/100 := by
  refine ⟨⟨rfl, rfl, ?_⟩, ?_, ?_, ?_⟩
  · simp only [calc_packaging_per_pack, calc_pack_height_mm, calc_pack_perimeter_m,
      calc_film_cost_per_pack_rub, calc_total_packaging_per_pallet_rub,
      calc_total_packaging_per_pack_rub]
    rw [if_pos (by omega : (0:ℤ) < pks)]
  · simp only [calc_packaging_per_pack, calc_pack_height_mm, calc_pack_perimeter_m,
      calc_film_cost_per_pack_rub]
    norm_num [defaultConfig]
    rw [round2_of_ne 36 (by norm_num)]
    norm_num
  · simp only [calc_packaging_per_pack, calc_pack_height_mm, calc_pack_perimeter_m,
      calc_film_cost_per_pack_rub, calc_total_packaging_per_pallet_rub]
    norm_num [defaultConfig]
    rw [round2_of_ne 1226 (by norm_num)]
    norm_num
  · simp only [calc_packaging_per_pack, calc_pack_height_mm, calc_pack_perimeter_m,
      calc_film_cost_per_pack_rub, calc_total_packaging_per_pallet_rub,
      calc_total_packaging_per_pack_rub]
    rw [if_pos (by omega : (0:ℤ) < 16)]
    norm_num [defaultConfig]
    rw [round2_of_tie_even (613/8) (by norm_num) (by norm_num)]
    norm_num

/-- Witness for C4 at the default configuration with 12 slabs and 16 packs. -/
theorem claim_C4_witness :
    validConfig defaultConfig ∧
    (calc_packaging_per_pack defaultConfig 12 16).film_cost_rub = 36 ∧
    (calc_packaging_per_pack defaultConfig 12 16).total_pallet_cost_rub = 1226 ∧
    (calc_packaging_per_pack defaultConfig 12 16).total_pack_cost_rub = 7662/100 :=
  ⟨validConfig_default,
    (claim_C4 defaultConfig 12 16 validConfig_default (by omega) (by omega)).2⟩

/-- Claim C10: every packaging-dependent figure `run` emits — packaging cost
per m³, pallet cost with packaging, cost per m³ and per ton with packaging,
truck cost, pack price — is computed from the 2-decimal-rounded total pallet
packaging cost `round2 (rawPkgPalletOf s rho)`, the very value emitted as the
row's packaging-cost-per-pallet field, not from the unrounded value. -/
theorem claim_C10 (s : EngineState) (rho : ℚ) (h : rho ∈ s.densities) :
    rowOf s rho ∈ run s ∧
    (rowOf s rho).pkg_per_pallet_rub = round2 (rawPkgPalletOf s rho) ∧
    (rowOf s rho).pkg_cost_m3 =
      round2 (calc_packaging_cost_m3 (round2 (rawPkgPalletOf s rho)) (palletVolOf s rho)) ∧
    (rowOf s rho).pallet_cost_rub =
      round2 (calc_wool_cost_m3 (calc_production_cost_t s) rho * palletVolOf s rho
        + round2 (rawPkgPalletOf s rho)) ∧
    (rowOf s rho).cost_m3_with_pkg =
      round2 (calc_total_cost_m3
        (calc_wool_cost_m3 (calc_production_cost_t s) rho * palletVolOf s rho
          + round2 (rawPkgPalletOf s rho)) (palletVolOf s rho)) ∧
    (rowOf s rho).cost_t_with_pkg =
      round2 (calc_total_cost_t_with_packaging
        (calc_total_cost_m3
          (calc_wool_cost_m3 (calc_production_cost_t s) rho * palletVolOf s rho
            + round2 (rawPkgPalletOf s rho)) (palletVolOf s rho)) rho) ∧
    (rowOf s rho).truck_cost_rub =
      round2 ((calc_wool_cost_m3 (calc_production_cost_t s) rho * palletVolOf s rho
        + round2 (rawPkgPalletOf s rho)) * s.config.pallets_per_truck) ∧
    (rowOf s rho).pack_price_rub =
      round2 (calc_total_cost_m3
        (calc_wool_cost_m3 (calc_production_cost_t s) rho * palletVolOf s rho
          + round2 (rawPkgPalletOf s rho)) (palletVolOf s rho) * (pkgOf s rho).vol_m3) := by
  refine ⟨?_, rfl, rfl, rfl, rfl, rfl, rfl, rfl⟩
  simp only [run, rowOf]
  exact List.mem_map_of_mem _ h

/-- Witness for C10 at the default engine state and density 35. -/
theorem claim_C10_witness :
    (35:ℚ) ∈ defaultEngine.densities ∧
    (rowOf defaultEngine 35).pkg_per_pallet_rub = round2 (rawPkgPalletOf defaultEngine 35) ∧
    (rowOf defaultEngine 35).pallet_cost_rub =
      round2 (calc_wool_cost_m3 (calc_production_cost_t defaultEngine) 35
          * palletVolOf defaultEngine 35
        + round2 (rawPkgPalletOf defaultEngine 35)) :=
  ⟨by simp [defaultEngine],
    (claim_C10 defaultEngine 35 (by simp [defaultEngine])).2.1,
    (claim_C10 defaultEngine 35 (by simp [defaultEngine])).2.2.2.1⟩

/-- Claim C2: `optimize_pack` returns the largest `n` in `[1, nStart]` passing
the 0.001-tolerance clean-stacking test against the target pallet content
height, and `nStart` itself when no `n` passes, where
`nStart = max 1 (min ⌊targetPackHeight/t⌋ nWeight)`; under the defaults
`optimize_pack 50 50 = 12`, and with `max_pack_weight_kg = 10`,
`optimize_pack 50 200 = 1`. -/
theorem claim_C2 (c : Config) (t d : ℚ) (hc : validConfig c) (ht : 0 < t) (hd : 0 < d) :
    (1 ≤ optimize_pack c t d ∧ optimize_pack c t d ≤ nStart c t d) ∧
    nStart c t d = max 1 (min ⌊c.target_pack_height_mm / t⌋ (nWeight c t d)) ∧
    ((okPack c t (optimize_pack c t d).toNat ∧
        ∀ m : ℕ, (optimize_pack c t d).toNat < m → (m:ℤ) ≤ nStart c t d →
          ¬ okPack c t m) ∨
      ((∀ m : ℕ, 1 ≤ m → (m:ℤ) ≤ nStart c t d → ¬ okPack c t m) ∧
        optimize_pack c t d = nStart c t d)) ∧
    optimize_pack defaultConfig 50 50 = 12 ∧
    optimize_pack { defaultConfig with max_pack_weight_kg := 10 } 50 200 = 1 := by
  have hns1 := one_le_nStart c t d
  refine ⟨?_, nStart_eq c t d, ?_, ?_, ?_⟩
  · cases hsd : searchDown c t (nStart c t d).toNat with
    | none =>
      rw [optimize_pack_eq_of_none hsd]
      exact ⟨hns1, le_refl _⟩
    | some n =>
      rw [optimize_pack_eq_of_some hsd]
      obtain ⟨h1, h2, -, -⟩ := searchDown_eq_some hsd
      omega
  · cases hsd : searchDown c t (nStart c t d).toNat with
    | none =>
      right
      exact ⟨fun m hm1 hm2 => searchDown_eq_none hsd m hm1 (by omega),
        optimize_pack_eq_of_none hsd⟩
    | some n =>
      left
      obtain ⟨h1, h2, h3, h4⟩ := searchDown_eq_some hsd
      rw [optimize_pack_eq_of_some hsd, Int.toNat_natCast]
      exact ⟨h3, fun m hm1 hm2 => h4 m hm1 (by omega)⟩
  · have hw : nWeight defaultConfig 50 50 = 16 := by
      simp only [nWeight]
      rw [if_pos (by norm_num [defaultConfig])]
      norm_num [defaultConfig]
    have hns : nStart defaultConfig 50 50 = 12 := by
      rw [nStart_eq, hw]
      norm_num [defaultConfig]
    have hok : okPack defaultConfig 50 12 := by
      norm_num [okPack, qmod, abs_lt, defaultConfig]
    have hsd : searchDown defaultConfig 50 (nStart defaultConfig 50 50).toNat = some 12 := by
      rw [hns, show ((12:ℤ)).toNat = 12 from rfl, show (12:ℕ) = 11 + 1 from rfl,
        searchDown_succ, if_pos hok]
    rw [optimize_pack_eq_of_some hsd]
    rfl
  · have hw : nWeight { defaultConfig with max_pack_weight_kg := 10 } 50 200 = 1 := by
      simp only [nWeight]
      rw [if_pos (by norm_num [defaultConfig])]
      norm_num [defaultConfig]
    have hns : nStart { defaultConfig with max_pack_weight_kg := 10 } 50 200 = 1 := by
      rw [nStart_eq, hw]
      norm_num [defaultConfig]
    have hok : okPack { defaultConfig with max_pack_weight_kg := 10 } 50 1 := by
      norm_num [okPack, qmod, abs_lt, defaultConfig]
    have hsd : searchDown { defaultConfig with max_pack_weight_kg := 10 } 50
        (nStart { defaultConfig with max_pack_weight_kg := 10 } 50 200).toNat = some 1 := by
      rw [hns, show ((1:ℤ)).toNat = 1 from rfl, show (1:ℕ) = 0 + 1 from rfl,
        searchDown_succ, if_pos hok]
    rw [optimize_pack_eq_of_some hsd]
    rfl

/-- Witness for C2 at the default configuration, thickness 50, density 50. -/
theorem claim_C2_witness :
    validConfig defaultConfig ∧ (0:ℚ) < 50 ∧
    ((1 ≤ optimize_pack defaultConfig 50 50 ∧
        optimize_pack defaultConfig 50 50 ≤ nStart defaultConfig 50 50) ∧
      nStart defaultConfig 50 50 =
        max 1 (min ⌊defaultConfig.target_pack_height_mm / 50⌋ (nWeight defaultConfig 50 50)) ∧
      ((okPack defaultConfig 50 (optimize_pack defaultConfig 50 50).toNat ∧
          ∀ m : ℕ, (optimize_pack defaultConfig 50 50).toNat < m →
            (m:ℤ) ≤ nStart defaultConfig 50 50 → ¬ okPack defaultConfig 50 m) ∨
        ((∀ m : ℕ, 1 ≤ m → (m:ℤ) ≤ nStart defaultConfig 50 50 →
            ¬ okPack defaultConfig 50 m) ∧
          optimize_pack defaultConfig 50 50 = nStart defaultConfig 50 50)) ∧
      optimize_pack defaultConfig 50 50 = 12 ∧
      optimize_pack { defaultConfig with max_pack_weight_kg := 10 } 50 200 = 1) :=
  ⟨validConfig_default, by norm_num,
    claim_C2 defaultConfig 50 50 validConfig_default (by norm_num) (by norm_num)⟩

/-- Claim C6 (amended): the fall-back is not taken whenever the target pallet
content height is itself within the 0.001 tolerance of a multiple of the slab
thickness — then `n = 1` passes the test and the downward search succeeds. (As
stated the claim is false: `n = 1` does not always pass, see the
counterexample.) -/
theorem claim_C6 (c : Config) (t d : ℚ) (hc : validConfig c) (ht : 0 < t) (hd : 0 < d)
    (hdiv : |qmod c.target_pallet_height_mm t| < 1/1000) :
    searchDown c t (nStart c t d).toNat ≠ none ∧
    ∃ n : ℕ, searchDown c t (nStart c t d).toNat = some n ∧ okPack c t n ∧
      optimize_pack c t d = (n : ℤ) := by
  have hok1 : okPack c t 1 := by
    constructor
    · simpa using ht
    · simpa using hdiv
  have h1k : 1 ≤ (nStart c t d).toNat := by
    have := one_le_nStart c t d
    omega
  have hne := searchDown_ne_none (le_refl 1) h1k hok1
  cases hsn : searchDown c t (nStart c t d).toNat with
  | none => exact absurd hsn hne
  | some n =>
    obtain ⟨-, -, h3, -⟩ := searchDown_eq_some hsn
    exact ⟨by simp, n, rfl, h3, optimize_pack_eq_of_some hsn⟩

/-- Witness for C6 at the default configuration (thickness 50 divides 2400). -/
theorem claim_C6_witness :
    (validConfig defaultConfig ∧ (0:ℚ) < 50 ∧
      |qmod defaultConfig.target_pallet_height_mm 50| < 1/1000) ∧
    (searchDown defaultConfig 50 (nStart defaultConfig 50 50).toNat ≠ none ∧
      ∃ n : ℕ, searchDown defaultConfig 50 (nStart defaultConfig 50 50).toNat = some n ∧
        okPack defaultConfig 50 n ∧ optimize_pack defaultConfig 50 50 = (n : ℤ)) :=
  ⟨⟨validConfig_default, by norm_num, by norm_num [qmod, abs_lt, defaultConfig]⟩,
    claim_C6 defaultConfig 50 50 validConfig_default (by norm_num) (by norm_num)
      (by norm_num [qmod, abs_lt, defaultConfig])⟩

/-- Counterexample to C6 as stated: with slab thickness 70 mm under the
otherwise-default configuration no `n` in `[1, nStart] = [1, 8]` passes the
tolerance (2400 mod 70·n is at least 20 for all of them), the search returns
`none`, and `optimize_pack` takes the fall-back branch returning `nStart`. -/
theorem claim_C6_cex :
    validConfig defaultConfig ∧ (0:ℚ) < 70 ∧ (0:ℚ) < 50 ∧
    nStart defaultConfig 70 50 = 8 ∧
    searchDown defaultConfig 70 (nStart defaultConfig 70 50).toNat = none ∧
    optimize_pack defaultConfig 70 50 = nStart defaultConfig 70 50 := by
  have hw : nWeight defaultConfig 70 50 = 11 := by
    simp only [nWeight]
    rw [if_pos (by norm_num [defaultConfig])]
    norm_num [defaultConfig]
  have hns : nStart defaultConfig 70 50 = 8 := by
    rw [nStart_eq, hw]
    norm_num [defaultConfig]
  have h8 : ¬ okPack defaultConfig 70 8 := by
    norm_num [okPack, qmod, abs_lt, defaultConfig]
  have h7 : ¬ okPack defaultConfig 70 7 := by
    norm_num [okPack, qmod, abs_lt, defaultConfig]
  have h6 : ¬ okPack defaultConfig 70 6 := by
    norm_num [okPack, qmod, abs_lt, defaultConfig]
  have h5 : ¬ okPack defaultConfig 70 5 := by
    norm_num [okPack, qmod, abs_lt, defaultConfig]
  have h4 : ¬ okPack defaultConfig 70 4 := by
    norm_num [okPack, qmod, abs_lt, defaultConfig]
  have h3 : ¬ okPack defaultConfig 70 3 := by
    norm_num [okPack, qmod, abs_lt, defaultConfig]
  have h2 : ¬ okPack defaultConfig 70 2 := by
    norm_num [okPack, qmod, abs_lt, defaultConfig]
  have h1 : ¬ okPack defaultConfig 70 1 := by
    norm_num [okPack, qmod, abs_lt, defaultConfig]
  have hnone : searchDown defaultConfig 70 8 = none := by
    rw [show (8:ℕ) = 7 + 1 from rfl, searchDown_succ, if_neg h8,
      show (7:ℕ) = 6 + 1 from rfl, searchDown_succ, if_neg h7,
      show (6:ℕ) = 5 + 1 from rfl, searchDown_succ, if_neg h6,
      show (5:ℕ) = 4 + 1 from rfl, searchDown_succ, if_neg h5,
      show (4:ℕ) = 3 + 1 from rfl, searchDown_succ, if_neg h4,
      show (3:ℕ) = 2 + 1 from rfl, searchDown_succ, if_neg h3,
      show (2:ℕ) = 1 + 1 from rfl, searchDown_succ, if_neg h2,
      show (1:ℕ) = 0 + 1 from rfl, searchDown_succ, if_neg h1]
    rfl
  have hsdn : searchDown defaultConfig 70 (nStart defaultConfig 70 50).toNat = none := by
    rw [hns]
    exact hnone
  exact ⟨validConfig_default, by norm_num, by norm_num, hns, hsdn,
    optimize_pack_eq_of_none hsdn⟩

/-- `optimize_pack` at the default configuration for density 35. -/
lemma optimize_pack_default_35 : optimize_pack defaultConfig 50 35 = 12 := by
  have hw : nWeight defaultConfig 50 35 = 23 := by
    simp only [nWeight]
    rw [if_pos (by norm_num [defaultConfig])]
    norm_num [defaultConfig]
  have hns : nStart defaultConfig 50 35 = 12 := by
    rw [nStart_eq, hw]
    norm_num [defaultConfig]
  have hok : okPack defaultConfig 50 12 := by
    norm_num [okPack, qmod, abs_lt, defaultConfig]
  have hsd : searchDown defaultConfig 50 (nStart defaultConfig 50 35).toNat = some 12 := by
    rw [hns, show ((12:ℤ)).toNat = 12 from rfl, show (12:ℕ) = 11 + 1 from rfl,
      searchDown_succ, if_pos hok]
  rw [optimize_pack_eq_of_some hsd]
  rfl

/-- The slab count `run` resolves for density 35 at the default state. -/
lemma resolveN_default_35 : resolveN defaultEngine 35 = 12 := by
  simp only [resolveN, defaultEngine, List.map_cons, lookupSetting]
  norm_num
  exact optimize_pack_default_35

/-- Packs per pallet for density 35 at the default state. -/
lemma pksOf_default_35 : pksOf defaultEngine 35 = 16 := by
  simp only [pksOf]
  rw [resolveN_default_35, calc_packs_on_pallet_eq]
  norm_num [calc_pack_height_mm, defaultEngine, defaultConfig]

/-- Pack volume for density 35 at the default state. -/
lemma vol_default_35 : (pkgOf defaultEngine 35).vol_m3 = 432/1000 := by
  simp only [pkgOf, calc_packaging_per_pack]
  rw [resolveN_default_35]
  norm_num [calc_pack_volume_m3, calc_pack_height_mm, defaultEngine, defaultConfig]

/-- Pallet volume for density 35 at the default state. -/
lemma palletVolOf_default_35 : palletVolOf defaultEngine 35 = 6912/1000 := by
  simp only [palletVolOf, calc_pallet_volume_m3]
  rw [vol_default_35, pksOf_default_35]
  norm_num

/-- `optimize_pack` at the counterexample configuration for density 35. -/
lemma optimize_pack_cex : optimize_pack cexConfig (33333/100) 35 = 1 := by
  have hw : nWeight cexConfig (33333/100) 35 = 2 := by
    simp only [nWeight]
    rw [if_pos (by norm_num [cexConfig, defaultConfig])]
    norm_num [cexConfig, defaultConfig]
  have hns : nStart cexConfig (33333/100) 35 = 1 := by
    rw [nStart_eq, hw]
    norm_num [cexConfig, defaultConfig]
  have h1 : ¬ okPack cexConfig (33333/100) 1 := by
    norm_num [okPack, qmod, abs_lt, cexConfig, defaultConfig]
  have hsd : searchDown cexConfig (33333/100)
      (nStart cexConfig (33333/100) 35).toNat = none := by
    rw [hns, show ((1:ℤ)).toNat = 1 from rfl, show (1:ℕ) = 0 + 1 from rfl,
      searchDown_succ, if_neg h1]
    rfl
  rw [optimize_pack_eq_of_none hsd, hns]

/-- The slab count `run` resolves at the counterexample state. -/
lemma resolveN_cex : resolveN cexState 35 = 1 := by
  simp only [resolveN, cexState, lookupSetting]
  norm_num
  exact optimize_pack_cex

/-- Packs per pallet at the counterexample state. -/
lemma pksOf_cex : pksOf cexState 35 = 14 := by
  simp only [pksOf]
  rw [resolveN_cex, calc_packs_on_pallet_eq]
  norm_num [calc_pack_height_mm, cexState, cexConfig, defaultConfig]

/-- Pack volume at the counterexample state. -/
lemma vol_cex : (pkgOf cexState 35).vol_m3 = 33333/100000 := by
  simp only [pkgOf, calc_packaging_per_pack]
  rw [resolveN_cex]
  norm_num [calc_pack_volume_m3, calc_pack_height_mm, cexState, cexConfig, defaultConfig]

/-- Pallet volume at the counterexample state. -/
lemma palletVolOf_cex : palletVolOf cexState 35 = 233331/50000 := by
  simp only [palletVolOf, calc_pallet_volume_m3]
  rw [vol_cex, pksOf_cex]
  norm_num

/-- Claim C3 (amended): for every row of `run`, the unrounded pallet volume is
exactly pack volume × packs per pallet (the emitted field is its 4-decimal
rounding), and the emitted cost-per-m³-with-packaging equals
`(woolCostPerM3 · palletVolume + packagingCostPerPallet) / palletVolume`
within 1e-2 — with woolCostPerM3 and palletVolume the run's unrounded
intermediates and packagingCostPerPallet the emitted field. (Reading pallet
and pack volume from the emitted rounded fields can break the claimed 1e-4
bound; see the counterexample.) -/
theorem claim_C3 (s : EngineState) (rho : ℚ) (h : rho ∈ s.densities)
    (hv : 0 < palletVolOf s rho) :
    rowOf s rho ∈ run s ∧
    palletVolOf s rho = (pkgOf s rho).vol_m3 * ((pksOf s rho) : ℚ) ∧
    (rowOf s rho).pallet_vol_m3 = round4 ((pkgOf s rho).vol_m3 * ((pksOf s rho) : ℚ)) ∧
    |(rowOf s rho).cost_m3_with_pkg -
        (calc_wool_cost_m3 (calc_production_cost_t s) rho * palletVolOf s rho
          + (rowOf s rho).pkg_per_pallet_rub) / palletVolOf s rho| ≤ 1/100 := by
  refine ⟨?_, rfl, rfl, ?_⟩
  · simp only [run, rowOf]
    exact List.mem_map_of_mem _ h
  · have h1 : (rowOf s rho).cost_m3_with_pkg =
        round2 (calc_total_cost_m3
          (calc_wool_cost_m3 (calc_production_cost_t s) rho * palletVolOf s rho
            + (rowOf s rho).pkg_per_pallet_rub) (palletVolOf s rho)) := rfl
    have h2 : calc_total_cost_m3
        (calc_wool_cost_m3 (calc_production_cost_t s) rho * palletVolOf s rho
          + (rowOf s rho).pkg_per_pallet_rub) (palletVolOf s rho) =
        (calc_wool_cost_m3 (calc_production_cost_t s) rho * palletVolOf s rho
          + (rowOf s rho).pkg_per_pallet_rub) / palletVolOf s rho := by
      simp only [calc_total_cost_m3]
      rw [if_pos hv]
    rw [h1, h2]
    exact le_trans (abs_round2_sub_le _) (by norm_num)

/-- Witness for C3 at the default state and density 35. -/
theorem claim_C3_witness :
    ((35:ℚ) ∈ defaultEngine.densities ∧ 0 < palletVolOf defaultEngine 35) ∧
    (rowOf defaultEngine 35 ∈ run defaultEngine ∧
      palletVolOf defaultEngine 35 =
        (pkgOf defaultEngine 35).vol_m3 * ((pksOf defaultEngine 35) : ℚ) ∧
      (rowOf defaultEngine 35).pallet_vol_m3 =
        round4 ((pkgOf defaultEngine 35).vol_m3 * ((pksOf defaultEngine 35) : ℚ)) ∧
      |(rowOf defaultEngine 35).cost_m3_with_pkg -
          (calc_wool_cost_m3 (calc_production_cost_t defaultEngine) 35
              * palletVolOf defaultEngine 35
            + (rowOf defaultEngine 35).pkg_per_pallet_rub)
          / palletVolOf defaultEngine 35| ≤ 1/100) :=
  ⟨⟨by simp [defaultEngine], by rw [palletVolOf_default_35]; norm_num⟩,
    claim_C3 defaultEngine 35 (by simp [defaultEngine])
      (by rw [palletVolOf_default_35]; norm_num)⟩

/-- Counterexample to C3 as stated: under the valid configuration `cexConfig`
(333.33 mm slabs), the emitted 4-decimal-rounded fields of the density-35 row
violate the 1e-4 bound — `|4.6666 - 0.3333 × 14| = 0.0004`. -/
theorem claim_C3_cex :
    validConfig cexConfig ∧ (35:ℚ) ∈ cexState.densities ∧
    ¬ (|(rowOf cexState 35).pallet_vol_m3 -
        (rowOf cexState 35).pack_vol_m3 * ((rowOf cexState 35).packs_per_pallet : ℚ)|
      ≤ 1/10000) := by
  have hrowPV : (rowOf cexState 35).pallet_vol_m3 = round4 (palletVolOf cexState 35) := rfl
  have hrowV : (rowOf cexState 35).pack_vol_m3 = round4 ((pkgOf cexState 35).vol_m3) := rfl
  have hrowP : (rowOf cexState 35).packs_per_pallet = pksOf cexState 35 := rfl
  refine ⟨by norm_num [validConfig, cexConfig, defaultConfig], by simp [cexState], ?_⟩
  rw [hrowPV, hrowV, hrowP, palletVolOf_cex, vol_cex, pksOf_cex]
  rw [round4_of_ne (233331/50000) (by norm_num), round4_of_ne (33333/100000) (by norm_num)]
  norm_num [abs_le]

/-- Unfolding: inserting below the head. -/
lemma insortQ_cons_le {x y : ℚ} (l : List ℚ) (h : x ≤ y) :
    insortQ x (y :: l) = x :: y :: l := by
  simp only [insortQ]
  rw [if_pos h]

/-- Unfolding: inserting past the head. -/
lemma insortQ_cons_gt {x y : ℚ} (l : List ℚ) (h : ¬ x ≤ y) :
    insortQ x (y :: l) = y :: insortQ x l := by
  simp only [insortQ]
  rw [if_neg h]

/-- Insertion in front when the head (if any) is at least `x`. -/
lemma insortQ_eq_cons {x : ℚ} {l : List ℚ} (h : ∀ z, l.head? = some z → x ≤ z) :
    insortQ x l = x :: l := by
  cases l with
  | nil => rfl
  | cons y ys => exact insortQ_cons_le ys (h y rfl)

/-- Members of an insertion. -/
lemma mem_insortQ {a x : ℚ} {l : List ℚ} : a ∈ insortQ x l ↔ a = x ∨ a ∈ l := by
  induction l with
  | nil => simp [insortQ]
  | cons y ys ih =>
    by_cases h : x ≤ y
    · rw [insortQ_cons_le ys h]
      simp
    · rw [insortQ_cons_gt ys h, List.mem_cons, ih, List.mem_cons]
      tauto

/-- `sortQ` unfolds one step. -/
lemma sortQ_cons (y : ℚ) (ys : List ℚ) : sortQ (y :: ys) = insortQ y (sortQ ys) := rfl

/-- Sorting an already-sorted list is the identity. -/
lemma sortQ_of_chain {l : List ℚ} (h : l.Chain' (· ≤ ·)) : sortQ l = l := by
  induction l with
  | nil => rfl
  | cons y ys ih =>
    obtain ⟨hhead, htail⟩ := List.chain'_cons'.mp h
    rw [sortQ_cons, ih htail]
    exact insortQ_eq_cons (fun z hz => hhead z (by simp [hz]))

/-- Appending one element to a sorted list and sorting is ordered insertion. -/
lemma sortQ_append_singleton {l : List ℚ} (v : ℚ) (h : l.Chain' (· ≤ ·)) :
    sortQ (l ++ [v]) = insortQ v l := by
  induction l with
  | nil => rfl
  | cons y ys ih =>
    obtain ⟨hhead, htail⟩ := List.chain'_cons'.mp h
    rw [List.cons_append, sortQ_cons, ih htail]
    by_cases hvy : v ≤ y
    · rw [insortQ_cons_le ys hvy,
        insortQ_eq_cons (fun z hz => le_trans hvy (hhead z (by simp [hz])))]
      by_cases hyv : y ≤ v
      · rw [insortQ_cons_le ys hyv, le_antisymm hyv hvy]
      · rw [insortQ_cons_gt ys hyv,
          insortQ_eq_cons (fun z hz => hhead z (by simp [hz]))]
    · rw [insortQ_cons_gt ys hvy]
      refine insortQ_eq_cons (fun z hz => ?_)
      have hyv : y ≤ v := le_of_lt (not_le.mp hvy)
      cases ys with
      | nil =>
        simp only [insortQ, List.head?] at hz
        exact (Option.some.injEq _ _ ▸ hz) ▸ hyv
      | cons w ws =>
        by_cases hvw : v ≤ w
        · rw [insortQ_cons_le ws hvw] at hz
          simp only [List.head?, Option.some.injEq] at hz
          exact hz ▸ hyv
        · rw [insortQ_cons_gt ws hvw] at hz
          simp only [List.head?, Option.some.injEq] at hz
          exact hz ▸ hhead w (by simp)

/-- Erasing a freshly inserted element restores the list. -/
lemma eraseQ_insortQ {l : List ℚ} {v : ℚ} (h : v ∉ l) : eraseQ (insortQ v l) v = l := by
  induction l with
  | nil => simp [insortQ, eraseQ]
  | cons y ys ih =>
    have hne : y ≠ v := fun he => h (he ▸ List.mem_cons_self y ys)
    by_cases hvy : v ≤ y
    · rw [insortQ_cons_le ys hvy]
      simp [eraseQ]
    · rw [insortQ_cons_gt ys hvy]
      simp only [eraseQ]
      rw [if_neg hne, ih (fun hm => h (List.mem_cons_of_mem y hm))]

/-- `hasKey` is monotone under appending entries on the right. -/
lemma hasKey_append_left {ps qs : List (ℚ × PackSetting)} {r : ℚ}
    (h : hasKey ps r = true) : hasKey (ps ++ qs) r = true := by
  simp only [hasKey, List.any_append, Bool.or_eq_true]
  exact Or.inl h

/-- `ensureSettings` is the identity when every density already has a key. -/
lemma ensureSettings_of_covered {ds : List ℚ} {ps : List (ℚ × PackSetting)}
    (h : ∀ r ∈ ds, hasKey ps r = true) : ensureSettings ps ds = ps := by
  induction ds generalizing ps with
  | nil => rfl
  | cons r rs ih =>
    simp only [ensureSettings]
    rw [if_pos (h r (List.mem_cons_self r rs))]
    exact ih (fun x hx => h x (List.mem_cons_of_mem r hx))

/-- Deleting a key that only occurs in the appended entry restores the list. -/
lemma eraseKeyQ_append_of_not_key {ps : List (ℚ × PackSetting)} {v : ℚ}
    (x : PackSetting) (h : hasKey ps v = false) :
    eraseKeyQ (ps ++ [(v, x)]) v = ps := by
  induction ps with
  | nil => simp [eraseKeyQ]
  | cons p rest ih =>
    simp only [hasKey, List.any_cons, Bool.or_eq_false_iff, decide_eq_false_iff_not] at h
    simp only [List.cons_append, eraseKeyQ]
    rw [if_neg h.1]
    exact congrArg (p :: ·) (ih (by simpa [hasKey] using h.2))

/-- Claim C9 (amended): when the prior density list is sorted ascending, every
listed density has a pack setting, and `v` is a fresh positive density, the
GUI's add-density followed by remove-density of `v` restores the engine's
density list and pack settings exactly. (Without the sortedness assumption the
round trip returns the sorted permutation instead — the pack tab sorts the
list on every redraw — see the counterexample.) -/
theorem claim_C9 (s : EngineState) (v : ℚ) (hv : 0 < v) (hmem : v ∉ s.densities)
    (hkey : hasKey s.pack_settings v = false)
    (hsorted : s.densities.Chain' (· ≤ ·))
    (hcov : ∀ r ∈ s.densities, hasKey s.pack_settings r = true) :
    remove_density (add_density s v) v = s := by
  have hcov2 : ∀ r ∈ insortQ v s.densities,
      hasKey (s.pack_settings ++ [(v, ⟨Mode.auto, 1⟩)]) r = true := by
    intro r hr
    rcases mem_insortQ.mp hr with rfl | hrl
    · simp [hasKey, List.any_append]
    · exact hasKey_append_left (hcov r hrl)
  have hadd : add_density s v =
      { s with
        densities := insortQ v s.densities
        pack_settings := s.pack_settings ++ [(v, ⟨Mode.auto, 1⟩)] } := by
    simp only [add_density]
    rw [if_neg (not_le.mpr hv), if_neg hmem, sortQ_append_singleton v hsorted,
      ensureSettings_of_covered hcov2]
  rw [hadd]
  simp only [remove_density]
  rw [eraseQ_insortQ hmem, sortQ_of_chain hsorted,
    eraseKeyQ_append_of_not_key _ hkey, ensureSettings_of_covered hcov]

/-- Witness for C9 at the default engine state with fresh density 40. -/
theorem claim_C9_witness :
    ((0:ℚ) < 40 ∧ (40:ℚ) ∉ defaultEngine.densities ∧
      hasKey defaultEngine.pack_settings 40 = false ∧
      defaultEngine.densities.Chain' (· ≤ ·) ∧
      (∀ r ∈ defaultEngine.densities, hasKey defaultEngine.pack_settings r = true)) ∧
    remove_density (add_density defaultEngine 40) 40 = defaultEngine :=
  ⟨⟨by norm_num, by norm_num [defaultEngine], by norm_num [hasKey, defaultEngine],
      by norm_num [defaultEngine, List.chain'_cons, List.chain'_singleton],
      by
        intro r hr
        simp [defaultEngine] at hr
        rcases hr with rfl | rfl | rfl | rfl | rfl | rfl | rfl | rfl <;>
          norm_num [hasKey, defaultEngine]⟩,
    claim_C9 defaultEngine 40 (by norm_num) (by norm_num [defaultEngine])
      (by norm_num [hasKey, defaultEngine])
      (by norm_num [defaultEngine, List.chain'_cons, List.chain'_singleton])
      (by
        intro r hr
        simp [defaultEngine] at hr
        rcases hr with rfl | rfl | rfl | rfl | rfl | rfl | rfl | rfl <;>
          norm_num [hasKey, defaultEngine])⟩

/-- Counterexample to C9 as stated: from the unsorted prior list `[50, 35]`,
adding 40 and removing it leaves `[35, 50]` — the pack-tab redraw sorts the
density list, so the prior element order is not restored. -/
theorem claim_C9_cex :
    (0:ℚ) < 40 ∧ (40:ℚ) ∉ c9State.densities ∧
    remove_density (add_density c9State 40) 40 ≠ c9State := by
  refine ⟨by norm_num, by norm_num [c9State], ?_⟩
  have hd : (remove_density (add_density c9State 40) 40).densities = [35, 50] := by
    norm_num [add_density, remove_density, c9State, sortQ, insortQ, eraseQ,
      eraseKeyQ, ensureSettings, hasKey]
  intro heq
  rw [heq] at hd
  norm_num [c9State] at hd

end Minwool
